import Mathlib

/-!
# Verification of the AgentGram SDK request pipeline

Shallow embedding of the core request pipeline of the `agentgram-js`
client library: the error taxonomy (`src/errors.ts`), the response
envelope (`src/types.ts`) and the HTTP client (`src/http.ts`, class
`HttpClient`).

The transport (`fetch`) is modelled as an oracle supplied to the
pipeline: it receives the constructed URL, method, headers and
serialized body and returns either a response (status plus a body that
either fails JSON parsing or parses to the declared `ApiResponse`
union), an abort (the timeout's `AbortController` fired), or a
network-level failure carrying the underlying error's message when the
thrown value is an `Error`. JSON serialization of the request body is
abstracted to its serialized text, and WHATWG-URL percent-encoding of
query keys/values is abstracted to the identity, since no claim
concerns escaped characters; everything else follows the source
line by line.
-/

namespace AgentGram

/-- A defined query-parameter value: `string | number | boolean` in the
source signature.  JS numbers used as query values in this SDK are
integers (page, limit, ...), so `number` is embedded as `Int`, whose
canonical string form agrees with JS `String(n)` on integers. -/
inductive QueryValue where
  | str (s : String)
  | num (n : Int)
  | bool (b : Bool)
deriving DecidableEq, Repr

/-- JS `String(value)` on a query-parameter value. -/
def stringifyQueryValue : QueryValue → String
  | .str s => s
  | .num n => toString n
  | .bool b => if b then "true" else "false"

/-- `HttpClientConfig` from `src/types.ts`: base URL (trailing slashes
already stripped by the constructor), API key, timeout in ms. -/
structure HttpClientConfig where
  baseUrl : String
  apiKey : String
  timeout : Nat
deriving DecidableEq, Repr

/-- `error` field of the failure envelope: `{ code, message }`. -/
structure ApiError where
  code : String
  message : String
deriving DecidableEq, Repr

/-- `ApiMeta` from `src/types.ts`: pagination metadata. -/
structure ApiMeta where
  page : Nat
  limit : Nat
  total : Nat
deriving DecidableEq, Repr

/-- `ApiResponse<T>` from `src/types.ts`: the tagged success/failure
envelope union. -/
inductive ApiResponse (T : Type) where
  | success (data : T) (meta : Option ApiMeta)
  | failure (error : ApiError)
deriving DecidableEq, Repr

/-- The `success` discriminant of an envelope (`json.success`). -/
def ApiResponse.isSuccess {T : Type} : ApiResponse T → Bool
  | .success _ _ => true
  | .failure _ => false

/-- The body of a received response, after the `response.json()` step is
attempted: either it rejects (malformed / non-JSON body) or it parses to
the declared `ApiResponse` union. -/
inductive ResponseBody (T : Type) where
  | malformed
  | envelope (json : ApiResponse T)
deriving DecidableEq, Repr

/-- Outcome of the `fetch` call inside `request`:
  * `success status body` — the promise resolved with a response;
  * `abort` — it rejected with a `DOMException` named `AbortError`
    (the per-call timeout fired);
  * `failure msg` — it rejected with any other value; `msg` is
    `some e.message` when that value is an `Error` instance and `none`
    otherwise. -/
inductive FetchOutcome (T : Type) where
  | success (status : Nat) (body : ResponseBody T)
  | abort
  | failure (msg : Option String)
deriving DecidableEq, Repr

/-- The runtime data of a thrown SDK error: the `name` set by the class
constructor, the `message`, and the `statusCode?` / `code?` fields of
the base class `AgentGramError` (`src/errors.ts`). -/
structure AgentGramError where
  name : String
  message : String
  statusCode : Option Nat
  code : Option String
deriving DecidableEq, Repr

/-- `new AgentGramError(message, statusCode?, code?)`. -/
def AgentGramError.base (message : String) (statusCode : Option Nat)
    (code : Option String) : AgentGramError :=
  ⟨"AgentGramError", message, statusCode, code⟩

/-- `new AuthenticationError(message)`: `super(message, 401, 'AUTHENTICATION_ERROR')`. -/
def AuthenticationError (message : String) : AgentGramError :=
  ⟨"AuthenticationError", message, some 401, some "AUTHENTICATION_ERROR"⟩

/-- `new RateLimitError(message)`: `super(message, 429, 'RATE_LIMIT_ERROR')`. -/
def RateLimitError (message : String) : AgentGramError :=
  ⟨"RateLimitError", message, some 429, some "RATE_LIMIT_ERROR"⟩

/-- `new NotFoundError(message)`: `super(message, 404, 'NOT_FOUND_ERROR')`. -/
def NotFoundError (message : String) : AgentGramError :=
  ⟨"NotFoundError", message, some 404, some "NOT_FOUND_ERROR"⟩

/-- `new ValidationError(message)`: `super(message, 400, 'VALIDATION_ERROR')`. -/
def ValidationError (message : String) : AgentGramError :=
  ⟨"ValidationError", message, some 400, some "VALIDATION_ERROR"⟩

/-- `new ServerError(message)`: `super(message, 500, 'SERVER_ERROR')`.
The status code is fixed at 500 by the class, whatever HTTP status
caused it. -/
def ServerError (message : String) : AgentGramError :=
  ⟨"ServerError", message, some 500, some "SERVER_ERROR"⟩

/-- The spec's §3 `ErrorKind` enumeration. -/
inductive ErrorKind where
  | authentication
  | validation
  | notFound
  | rateLimit
  | server
  | timeout
  | network
  | parse
  | generic
deriving DecidableEq, Repr

/-- Refinement map from a thrown error to the spec's `ErrorKind`: the
subclassed kinds are identified by the class `name`; the base-class
kinds Timeout / Network / Parse are identified by the fixed `code`
string the pipeline gives them; every other base-class error is
Generic. -/
def AgentGramError.kind (e : AgentGramError) : ErrorKind :=
  if e.name = "ValidationError" then .validation
  else if e.name = "AuthenticationError" then .authentication
  else if e.name = "NotFoundError" then .notFound
  else if e.name = "RateLimitError" then .rateLimit
  else if e.name = "ServerError" then .server
  else if e.code = some "TIMEOUT_ERROR" then .timeout
  else if e.code = some "NETWORK_ERROR" then .network
  else if e.code = some "PARSE_ERROR" then .parse
  else .generic

/-- `response.ok` of the Fetch standard: status in the range 200–299. -/
def responseOk (status : Nat) : Bool :=
  200 ≤ status && status < 300

/-- `URLSearchParams.set(key, value)`: replace the first pair with this
key (dropping any later duplicates), or append when the key is new. -/
def urlSearchParamsSet : List (String × String) → String → String →
    List (String × String)
  | [], k, v => [(k, v)]
  | p :: ps, k, v =>
      if p.1 = k then (k, v) :: ps.filter (fun q => q.1 ≠ k)
      else p :: urlSearchParamsSet ps k v

/-- One iteration of the loop in `HttpClient.buildUrl`: skip the entry
when the value is `undefined`, else `searchParams.set(key, String(value))`. -/
def urlParamStep (acc : List (String × String))
    (p : String × Option QueryValue) : List (String × String) :=
  match p.2 with
  | none => acc
  | some v => urlSearchParamsSet acc p.1 (stringifyQueryValue v)

/-- The query pairs accumulated by the loop in `HttpClient.buildUrl`
over `Object.entries(params)`, starting from the empty search params of
the freshly parsed URL. -/
def buildUrlParams (params : List (String × Option QueryValue)) :
    List (String × String) :=
  params.foldl urlParamStep []

/-- Serialize accumulated query pairs as `URL.toString` renders them
(percent-encoding abstracted to the identity). -/
def renderQuery (qs : List (String × String)) : String :=
  match qs with
  | [] => ""
  | _ => "?" ++ String.intercalate "&" (qs.map (fun p => p.1 ++ "=" ++ p.2))

/-- `HttpClient.buildUrl(path, params?)`: join the (already-stripped)
base URL with the path and append the defined query parameters. -/
def buildUrl (cfg : HttpClientConfig) (path : String)
    (params : List (String × Option QueryValue)) : String :=
  cfg.baseUrl ++ path ++ renderQuery (buildUrlParams params)

/-- The headers object built inside `HttpClient.request`. -/
def requestHeaders (cfg : HttpClientConfig) : List (String × String) :=
  [("Content-Type", "application/json"),
   ("Accept", "application/json"),
   ("Authorization", "Bearer " ++ cfg.apiKey)]

/-- `HttpClient.throwMappedError(status, message, code?)`: the
status→class switch.  `400/401/404/429` go to their dedicated classes,
any other status `≥ 500` to `ServerError`, and everything else to the
base `AgentGramError` carrying the numeric status and the optional
code. -/
def throwMappedError (status : Nat) (message : String)
    (code : Option String) : AgentGramError :=
  if status = 400 then ValidationError message
  else if status = 401 then AuthenticationError message
  else if status = 404 then NotFoundError message
  else if status = 429 then RateLimitError message
  else if 500 ≤ status then ServerError message
  else AgentGramError.base message (some status) code

/-- The part of `HttpClient.request` that runs once the `fetch` promise
settles: timeout/network mapping in the `catch`, the 204 short-circuit,
`response.json()` with the parse-error mapping, the
`!response.ok || !json.success` outcome mapping, and the unwrapping of
`data` on success.  `Except.ok none` is the `undefined` result of the
204 path; `Except.ok (some d)` is the unwrapped `data`. -/
def handleFetchOutcome {T : Type} (cfg : HttpClientConfig)
    (outcome : FetchOutcome T) : Except AgentGramError (Option T) :=
  match outcome with
  | .abort =>
      .error (AgentGramError.base
        ("Request timed out after " ++ toString cfg.timeout ++ "ms")
        none (some "TIMEOUT_ERROR"))
  | .failure msg =>
      .error (AgentGramError.base
        (msg.getD "Network request failed") none (some "NETWORK_ERROR"))
  | .success status body =>
      if status = 204 then
        .ok none
      else
        match body with
        | .malformed =>
            .error (AgentGramError.base
              ("Invalid JSON response (HTTP " ++ toString status ++ ")")
              (some status) (some "PARSE_ERROR"))
        | .envelope json =>
            if !responseOk status || !json.isSuccess then
              let errorMessage :=
                match json with
                | .failure err => err.message
                | .success _ _ => "HTTP " ++ toString status
              let errorCode :=
                match json with
                | .failure err => some err.code
                | .success _ _ => none
              .error (throwMappedError status errorMessage errorCode)
            else
              match json with
              | .success data _ => .ok (some data)
              | .failure _ => .ok none

/-- A mock transport standing for `fetch`: receives the constructed
URL, the method, the headers and the serialized body, and yields how
the `fetch` promise settles. -/
def Transport (T : Type) : Type :=
  String → String → List (String × String) → Option String → FetchOutcome T

/-- `HttpClient.request(method, path, body?, params?)`: build the URL,
build the headers, serialize the body, invoke the transport and handle
its outcome. -/
def request {T : Type} (cfg : HttpClientConfig) (method : String)
    (path : String) (body : Option String)
    (params : List (String × Option QueryValue))
    (transport : Transport T) : Except AgentGramError (Option T) :=
  handleFetchOutcome cfg
    (transport (buildUrl cfg path params) method (requestHeaders cfg) body)

/-- Project the error out of a pipeline result. -/
def requestError {T : Type} :
    Except AgentGramError (Option T) → Option AgentGramError
  | .error e => some e
  | .ok _ => none

/-- A transport that ignores its arguments and settles one fixed way. -/
def constTransport {T : Type} (o : FetchOutcome T) : Transport T :=
  fun _ _ _ _ => o

/-- A concrete configuration (the documented default endpoint and
timeout) used to instantiate universally quantified theorems. -/
def cfg₀ : HttpClientConfig :=
  ⟨"https://agentgram.co/api/v1", "test-key", 30000⟩

/-- A minimal payload type, standing for a post entity `{id: string}`. -/
structure PostStub where
  id : String
deriving DecidableEq, Repr

/-- The entries of `params` whose value is defined, keyed and
stringified the way the loop serializes them. -/
def presentPairs (params : List (String × Option QueryValue)) :
    List (String × String) :=
  params.filterMap (fun p => p.2.map (fun v => (p.1, stringifyQueryValue v)))

/-- `URLSearchParams.set` on a yet-unused key just appends the pair. -/
theorem urlSearchParamsSet_of_not_mem (ps : List (String × String))
    (k v : String) (h : k ∉ ps.map Prod.fst) :
    urlSearchParamsSet ps k v = ps ++ [(k, v)] := by
  induction ps with
  | nil => rfl
  | cons p ps ih =>
      simp only [List.map_cons, List.mem_cons] at h
      push_neg at h
      unfold urlSearchParamsSet
      rw [if_neg (fun hh => h.1 hh.symm), ih h.2]
      rfl

/-- Characterization of the `buildUrl` loop: when the parameter keys
are pairwise distinct and fresh for the accumulator, folding the loop
body appends exactly the stringified defined entries, in order. -/
theorem foldl_urlParamStep (params : List (String × Option QueryValue)) :
    ∀ acc : List (String × String),
      (∀ p ∈ params, p.1 ∉ acc.map Prod.fst) →
      (params.map Prod.fst).Nodup →
      params.foldl urlParamStep acc = acc ++ presentPairs params := by
  induction params with
  | nil => intro acc _ _; simp [presentPairs]
  | cons p ps ih =>
      intro acc hdisj hnd
      simp only [List.map_cons, List.nodup_cons] at hnd
      rw [List.foldl_cons]
      cases hp : p.2 with
      | none =>
          have hstep : urlParamStep acc p = acc := by
            simp [urlParamStep, hp]
          rw [hstep, ih acc (fun q hq => hdisj q (List.mem_cons_of_mem p hq)) hnd.2]
          simp [presentPairs, hp]
      | some v =>
          have hstep : urlParamStep acc p =
              acc ++ [(p.1, stringifyQueryValue v)] := by
            simp only [urlParamStep, hp]
            exact urlSearchParamsSet_of_not_mem acc p.1 _
              (hdisj p (List.mem_cons_self p ps))
          have hfresh : ∀ q ∈ ps,
              q.1 ∉ (acc ++ [(p.1, stringifyQueryValue v)]).map Prod.fst := by
            intro q hq
            simp only [List.map_append, List.map_cons, List.map_nil,
              List.mem_append, List.mem_singleton]
            rintro (hc | hc)
            · exact hdisj q (List.mem_cons_of_mem p hq) hc
            · exact hnd.1 (hc ▸ List.mem_map_of_mem Prod.fst hq)
          rw [hstep, ih _ hfresh hnd.2]
          simp [presentPairs, hp]

/-- With pairwise-distinct keys, the loop produces exactly the
stringified defined entries. -/
theorem buildUrlParams_eq (params : List (String × Option QueryValue))
    (hnd : (params.map Prod.fst).Nodup) :
    buildUrlParams params = presentPairs params := by
  simpa [buildUrlParams] using
    foldl_urlParamStep params [] (by simp) hnd

/-- Any key appearing among the produced pairs comes from a defined
entry of `params`. -/
theorem presentPairs_key_of_mem (k : String) :
    ∀ params : List (String × Option QueryValue),
      k ∈ (presentPairs params).map Prod.fst →
      ∃ v, (k, some v) ∈ params := by
  intro params hk
  simp only [presentPairs, List.map_filterMap, List.mem_filterMap] at hk
  obtain ⟨⟨a, b⟩, hp, hv⟩ := hk
  cases b with
  | none => simp at hv
  | some v =>
      simp only [Option.map_some] at hv
      simp at hv
      subst hv
      exact ⟨v, hp⟩

/-- In a list of pairs with pairwise-distinct keys, a key determines
its value. -/
theorem eq_of_mem_of_nodup_keys {β : Type} :
    ∀ (l : List (String × β)), (l.map Prod.fst).Nodup →
      ∀ (a : String) (b c : β), (a, b) ∈ l → (a, c) ∈ l → b = c := by
  intro l
  induction l with
  | nil => intro _ a b c h1 _; simp at h1
  | cons p l ih =>
      intro hnd a b c h1 h2
      obtain ⟨x, y⟩ := p
      simp only [List.map_cons, List.nodup_cons] at hnd
      rcases List.mem_cons.mp h1 with h1 | h1 <;>
        rcases List.mem_cons.mp h2 with h2 | h2
      · injection h1 with h1a h1b
        injection h2 with h2a h2b
        exact h1b.trans h2b.symm
      · injection h1 with h1a h1b
        exact absurd (List.mem_map_of_mem Prod.fst h2)
          (by rw [← h1a] at hnd; exact hnd.1)
      · injection h2 with h2a h2b
        exact absurd (List.mem_map_of_mem Prod.fst h1)
          (by rw [← h2a] at hnd; exact hnd.1)
      · exact ih hnd.2 a b c h1 h2

/-- C3: in every query-parameter mapping (pairwise-distinct keys, as
`Object.entries` of a record yields), every key whose value is absent is
omitted entirely from the query pairs of the constructed URL, and every
key with a present value — including falsy-but-present ones — appears
with its canonical stringified value; the constructed URL is exactly the
base URL and path followed by the rendering of those pairs. -/
theorem C3_query_params (params : List (String × Option QueryValue))
    (hnd : (params.map Prod.fst).Nodup) :
    (∀ k, (k, (none : Option QueryValue)) ∈ params →
      k ∉ (buildUrlParams params).map Prod.fst) ∧
    (∀ k v, (k, some v) ∈ params →
      (k, stringifyQueryValue v) ∈ buildUrlParams params) ∧
    (∀ cfg path, buildUrl cfg path params =
      cfg.baseUrl ++ path ++ renderQuery (buildUrlParams params)) := by
  refine ⟨?_, ?_, fun _ _ => rfl⟩
  · rw [buildUrlParams_eq params hnd]
    intro k hk hmem
    obtain ⟨v, hv⟩ := presentPairs_key_of_mem k params hmem
    exact Option.noConfusion
      (eq_of_mem_of_nodup_keys params hnd k none (some v) hk hv)
  · rw [buildUrlParams_eq params hnd]
    intro k v hkv
    exact List.mem_filterMap.mpr ⟨(k, some v), hkv, rfl⟩

/-- Witness for C3 at a concrete mapping: an absent `cursor` is dropped
while the falsy-but-present `limit: 0` and `archived: false` are kept. -/
theorem C3_query_params_witness :
    "cursor" ∉ (buildUrlParams [("cursor", (none : Option QueryValue)),
      ("limit", some (.num 0)), ("archived", some (.bool false))]).map Prod.fst ∧
    ("limit", stringifyQueryValue (.num 0)) ∈
      buildUrlParams [("cursor", (none : Option QueryValue)),
        ("limit", some (.num 0)), ("archived", some (.bool false))] ∧
    ("archived", stringifyQueryValue (.bool false)) ∈
      buildUrlParams [("cursor", (none : Option QueryValue)),
        ("limit", some (.num 0)), ("archived", some (.bool false))] :=
  have h := C3_query_params [("cursor", none), ("limit", some (.num 0)),
    ("archived", some (.bool false))] (by decide)
  ⟨h.1 "cursor" (by decide), h.2.1 "limit" (.num 0) (by decide),
    h.2.1 "archived" (.bool false) (by decide)⟩

/-- C4: a 204 response short-circuits to the `undefined` payload
(`Except.ok none`) without decoding the body, whatever the body is —
including bodies that are not valid JSON. -/
theorem C4_no_content {T : Type} (cfg : HttpClientConfig)
    (method path : String) (body : Option String)
    (params : List (String × Option QueryValue)) (rbody : ResponseBody T) :
    request cfg method path body params
      (constTransport (.success 204 rbody)) = .ok none := by
  cases rbody <;> rfl

/-- C6: when the transport aborts because the per-call timeout fired,
`request` raises a Timeout-kind error whose message contains the
configured timeout value in milliseconds. -/
theorem C6_timeout {T : Type} (cfg : HttpClientConfig)
    (method path : String) (body : Option String)
    (params : List (String × Option QueryValue)) :
    ∃ a b, request cfg method path body params
        (constTransport (.abort : FetchOutcome T)) =
      .error (AgentGramError.base (a ++ toString cfg.timeout ++ b)
        none (some "TIMEOUT_ERROR")) ∧
      (AgentGramError.base (a ++ toString cfg.timeout ++ b)
        none (some "TIMEOUT_ERROR")).kind = .timeout :=
  ⟨"Request timed out after ", "ms", rfl, rfl⟩

/-- C7: when the transport fails at the network level (not an abort)
with an `Error` carrying a description, `request` raises a Network-kind
error whose message is that description. -/
theorem C7_network {T : Type} (cfg : HttpClientConfig)
    (method path : String) (body : Option String)
    (params : List (String × Option QueryValue)) (desc : String) :
    request cfg method path body params
        (constTransport (.failure (some desc) : FetchOutcome T)) =
      .error (AgentGramError.base desc none (some "NETWORK_ERROR")) ∧
    (AgentGramError.base desc none (some "NETWORK_ERROR")).kind = .network :=
  ⟨rfl, rfl⟩

/-- C10: Timeout and Network errors carry no status code: both are
instances of the base class (`name = "AgentGramError"`), with
`statusCode` absent and `code` equal to `TIMEOUT_ERROR` resp.
`NETWORK_ERROR`. -/
theorem C10_transport_errors {T : Type} (cfg : HttpClientConfig)
    (method path : String) (body : Option String)
    (params : List (String × Option QueryValue)) (msg : Option String) :
    (∃ e, request cfg method path body params
        (constTransport (.abort : FetchOutcome T)) = .error e ∧
      e.name = "AgentGramError" ∧ e.statusCode = none ∧
      e.code = some "TIMEOUT_ERROR") ∧
    (∃ e, request cfg method path body params
        (constTransport (.failure msg : FetchOutcome T)) = .error e ∧
      e.name = "AgentGramError" ∧ e.statusCode = none ∧
      e.code = some "NETWORK_ERROR") :=
  ⟨⟨_, rfl, rfl, rfl, rfl⟩, ⟨_, rfl, rfl, rfl, rfl⟩⟩

/-- C5: a 2xx response (other than 204) whose body fails to parse as
JSON raises a Parse-kind error whose `statusCode` is the original HTTP
status — not a Generic and not a Server error. -/
theorem C5_parse_error {T : Type} (cfg : HttpClientConfig)
    (method path : String) (body : Option String)
    (params : List (String × Option QueryValue)) (s : Nat)
    (h2xx : responseOk s = true) (h204 : s ≠ 204) :
    ∃ e, request cfg method path body params
        (constTransport (.success s (.malformed : ResponseBody T))) =
      .error e ∧
      e = AgentGramError.base
        ("Invalid JSON response (HTTP " ++ toString s ++ ")")
        (some s) (some "PARSE_ERROR") ∧
      e.kind = .parse ∧ e.statusCode = some s ∧
      e.kind ≠ .generic ∧ e.kind ≠ .server := by
  refine ⟨_, ?_, rfl, ?_, rfl, ?_, ?_⟩
  · simp [request, handleFetchOutcome, constTransport, h204]
  · rfl
  · exact fun h => nomatch h
  · exact fun h => nomatch h

/-- Witness for C5 at status 200. -/
theorem C5_parse_error_witness :
    ∃ e, request cfg₀ "GET" "/posts" none []
        (constTransport (.success 200 (.malformed : ResponseBody Unit))) =
      .error e ∧
      e = AgentGramError.base
        ("Invalid JSON response (HTTP " ++ toString (200 : Nat) ++ ")")
        (some 200) (some "PARSE_ERROR") ∧
      e.kind = .parse ∧ e.statusCode = some 200 ∧
      e.kind ≠ .generic ∧ e.kind ≠ .server :=
  C5_parse_error cfg₀ "GET" "/posts" none [] 200 (by decide) (by decide)

/-- C8: a 2xx response (other than 204) carrying a success envelope
yields exactly the envelope's `data` field, unwrapped; the pagination
`meta`, when present, does not change the result. -/
theorem C8_success_unwrap {T : Type} (cfg : HttpClientConfig)
    (method path : String) (body : Option String)
    (params : List (String × Option QueryValue)) (s : Nat)
    (h2xx : responseOk s = true) (h204 : s ≠ 204)
    (d : T) (m : Option ApiMeta) :
    request cfg method path body params
      (constTransport (.success s (.envelope (.success d m)))) =
      .ok (some d) := by
  simp [request, handleFetchOutcome, constTransport, h204,
    ApiResponse.isSuccess, h2xx]

/-- Witness for C8: the spec's round-trip scenario — a success envelope
with data `{id: "p1"}` and meta `{page: 1, limit: 10, total: 1}` on a
GET yields exactly `{id: "p1"}`. -/
theorem C8_success_unwrap_witness :
    request cfg₀ "GET" "/posts/p1" none []
      (constTransport (.success 200 (.envelope
        (.success (PostStub.mk "p1") (some (ApiMeta.mk 1 10 1)))))) =
      .ok (some (PostStub.mk "p1")) :=
  C8_success_unwrap cfg₀ "GET" "/posts/p1" none [] 200 (by decide) (by decide)
    (PostStub.mk "p1") (some (ApiMeta.mk 1 10 1))

/-- C9: a 2xx response (other than 204) whose body is a valid failure
envelope raises the generic base error — `name = "AgentGramError"`, not
one of the named subclasses — with `statusCode` equal to that 2xx
status, the envelope's `message`, and the envelope's `code`. -/
theorem C9_2xx_failure_envelope (cfg : HttpClientConfig)
    (method path : String) (body : Option String)
    (params : List (String × Option QueryValue)) (s : Nat)
    (h2xx : responseOk s = true) (h204 : s ≠ 204) (err : ApiError) :
    request cfg method path body params
      (constTransport (.success s (.envelope (.failure err))
        : FetchOutcome Unit)) =
      .error (AgentGramError.base err.message (some s) (some err.code)) := by
  have hs : 200 ≤ s ∧ s < 300 := by
    simpa [responseOk] using h2xx
  simp [request, handleFetchOutcome, constTransport, h204,
    ApiResponse.isSuccess, throwMappedError,
    show ¬ s = 400 by omega, show ¬ s = 401 by omega,
    show ¬ s = 404 by omega, show ¬ s = 429 by omega,
    show ¬ 500 ≤ s by omega]

/-- Witness for C9 at status 200 with a failure envelope. -/
theorem C9_2xx_failure_envelope_witness :
    request cfg₀ "GET" "/posts" none []
      (constTransport (.success 200 (.envelope
        (.failure (ApiError.mk "UNEXPECTED" "oops"))) : FetchOutcome Unit)) =
      .error (AgentGramError.base "oops" (some 200) (some "UNEXPECTED")) :=
  C9_2xx_failure_envelope cfg₀ "GET" "/posts" none [] 200 (by decide)
    (by decide) (ApiError.mk "UNEXPECTED" "oops")

/-- The §4.1 status→kind table, on the statuses the C1 claim
quantifies over (400, 401, 404, 429 and the ≥500 row). -/
def tableKind (s : Nat) : ErrorKind :=
  if s = 400 then .validation
  else if s = 401 then .authentication
  else if s = 404 then .notFound
  else if s = 429 then .rateLimit
  else .server

/-- C1 counterexample: a 502 response with a failure envelope raises a
`ServerError`, whose `statusCode` is the class's fixed 500 — not the
HTTP status 502 the claim requires. -/
theorem C1_counterexample :
    (requestError (request cfg₀ "GET" "/agents/x" none []
      (constTransport (FetchOutcome.success 502
        (.envelope (.failure (ApiError.mk "SERVER_ERROR" "bad gateway")))
        (T := Unit))))).map (fun e => e.statusCode) = some (some 500) ∧
    ¬ (requestError (request cfg₀ "GET" "/agents/x" none []
      (constTransport (FetchOutcome.success 502
        (.envelope (.failure (ApiError.mk "SERVER_ERROR" "bad gateway")))
        (T := Unit))))).map (fun e => e.statusCode) = some (some 502) := by
  constructor <;> decide

/-- C1 (amended): for every status in {400, 401, 404, 429, 500, 502,
503}, a response with a failure envelope raises an error whose kind
matches the §4.1 table; its `statusCode` equals the HTTP status for
400, 401, 404, 429 and 500, while for the statuses above 500 it is the
`ServerError` class's fixed 500. -/
theorem C1_status_mapping (cfg : HttpClientConfig) (method path : String)
    (body : Option String) (params : List (String × Option QueryValue))
    (s : Nat) (err : ApiError)
    (h : s ∈ [400, 401, 404, 429, 500, 502, 503]) :
    ∃ e, request cfg method path body params
        (constTransport (.success s (.envelope (.failure err))
          : FetchOutcome Unit)) = .error e ∧
      e.kind = tableKind s ∧
      e.statusCode = some (if 500 ≤ s then 500 else s) := by
  fin_cases h <;> exact ⟨_, rfl, rfl, rfl⟩

/-- Witness for C1 (amended) at status 502. -/
theorem C1_status_mapping_witness :
    ∃ e, request cfg₀ "GET" "/agents/x" none []
        (constTransport (.success 502 (.envelope
          (.failure (ApiError.mk "SERVER_ERROR" "bad gateway")))
          : FetchOutcome Unit)) = .error e ∧
      e.kind = tableKind 502 ∧
      e.statusCode = some (if 500 ≤ 502 then 500 else 502) :=
  C1_status_mapping cfg₀ "GET" "/agents/x" none [] 502
    (ApiError.mk "SERVER_ERROR" "bad gateway") (by decide)

/-- C2 counterexample: a 404 response whose failure envelope carries
`code: "NOT_FOUND"` raises a `NotFoundError` whose `code` is the
class's fixed `"NOT_FOUND_ERROR"` — the envelope's code is not carried
into the error's `code` field as the claim requires. -/
theorem C2_counterexample :
    ¬ ((requestError (request cfg₀ "GET" "/agents/x" none []
      (constTransport (FetchOutcome.success 404
        (.envelope (.failure (ApiError.mk "NOT_FOUND" "no such agent")))
        (T := Unit))))).bind (fun e => e.code) = some "NOT_FOUND") := by
  decide

/-- C2 (amended): whenever the status is non-2xx or the discriminant is
false (and the status is not the undecoded 204), the raised error's
message is the envelope's embedded `error.message` when the body is a
failure envelope and `"HTTP <status>"` otherwise; the envelope's
embedded `error.code` reaches the error's `code` field only when the
status is outside the mapped table (not 400/401/404/429 and below 500)
— the mapped classes carry their own fixed code strings instead.  In
particular the 404 scenario raises a `NotFoundError` with message
`"no such agent"` (and code `"NOT_FOUND_ERROR"`). -/
theorem C2_error_payload (cfg : HttpClientConfig) (method path : String)
    (body : Option String) (params : List (String × Option QueryValue))
    (s : Nat) (err : ApiError) (h204 : s ≠ 204) :
    (∃ e, request cfg method path body params
        (constTransport (.success s (.envelope (.failure err))
          : FetchOutcome Unit)) = .error e ∧
      e.message = err.message ∧
      e.code = (if s = 400 then some "VALIDATION_ERROR"
        else if s = 401 then some "AUTHENTICATION_ERROR"
        else if s = 404 then some "NOT_FOUND_ERROR"
        else if s = 429 then some "RATE_LIMIT_ERROR"
        else if 500 ≤ s then some "SERVER_ERROR"
        else some err.code)) ∧
    (responseOk s = false →
      ∃ e, request cfg method path body params
        (constTransport (.success s (.envelope
          (.success () none)))) = .error e ∧
      e.message = "HTTP " ++ toString s) ∧
    (request cfg₀ "GET" "/agents/x" none []
        (constTransport (.success 404 (.envelope
          (.failure (ApiError.mk "NOT_FOUND" "no such agent")))
          : FetchOutcome Unit)) =
      .error (NotFoundError "no such agent")) := by
  refine ⟨?_, ?_, rfl⟩
  · refine ⟨throwMappedError s err.message (some err.code), ?_, ?_, ?_⟩
    · simp [request, handleFetchOutcome, constTransport, h204,
        ApiResponse.isSuccess]
    · unfold throwMappedError
      split_ifs <;> rfl
    · unfold throwMappedError
      split_ifs <;> rfl
  · intro hok
    refine ⟨throwMappedError s ("HTTP " ++ toString s) none, ?_, ?_⟩
    · simp [request, handleFetchOutcome, constTransport, h204,
        ApiResponse.isSuccess, hok]
    · unfold throwMappedError
      split_ifs <;> rfl

/-- Witness for C2 (amended): the spec's concrete 404 scenario. -/
theorem C2_error_payload_witness :
    request cfg₀ "GET" "/agents/x" none []
      (constTransport (.success 404 (.envelope
        (.failure (ApiError.mk "NOT_FOUND" "no such agent")))
        : FetchOutcome Unit)) =
      .error (NotFoundError "no such agent") :=
  (C2_error_payload cfg₀ "GET" "/agents/x" none [] 404
    (ApiError.mk "NOT_FOUND" "no such agent") (by decide)).2.2

end AgentGram
